import Mathlib

/-
Shallow embedding of the VIP InvestBot monitoring core (investbot.py).

Modelling conventions:
* Python floats (prices, percentages, thresholds) are embedded as `ℚ`.
* The global in-memory set `sent_alerts_cache` (a Python `set` of strings)
  is embedded as a `Finset String` threaded explicitly through each function.
* Wall-clock inputs (`datetime.now()` and friends) are embedded as explicit
  parameters: an `EasternTime` value for session decisions, and precomputed
  strings for the date-derived key fragments (`cutoffDate`, `hourBucket`,
  `todayISO`), exactly the strings the Python code would compute from the
  clock.
* Network effects are embedded as environment functions: each fetch either
  raises (constructor `err`, which the Python code catches per item),
  returns a non-200 response, or returns parsed data.  The Telegram POST
  outcome is likewise an environment value.
* The state file is embedded as its raw text content: save returns the
  string written (each key followed by a newline) and load splits that
  content into lines the way Python text-mode file iteration does
  (universal-newline translation included), stripping each line with
  Python's whitespace set.
* Message text is plumbing per the spec; blocks are rendered with the
  event fields concatenated in source order, numeric format specifiers
  abbreviated.  No claim inspects the literal text.
-/

/-! ### String helpers mirroring the Python primitives used by the code -/

/-- Code-point comparison of characters, as Python compares `str` characters. -/
def charLt (a b : Char) : Bool := decide (a.val < b.val)

/-- Lexicographic code-point order on character lists (Python `str` `<`). -/
def charListLt : List Char → List Char → Bool
  | [], [] => false
  | [], _ :: _ => true
  | _ :: _, [] => false
  | a :: as, b :: bs => if charLt a b then true else if charLt b a then false else charListLt as bs

/-- Python `a <= b` on strings: lexicographic by code points. -/
def pyStrLe (a b : String) : Bool := !(charListLt b.data a.data)

/-- Python `str.isspace()` on a single character: tab through carriage
return (9-13), the file separators 28-31, space, next line (133), and the
Unicode space separators (160, 5760, 8192-8202, 8232, 8233, 8239, 8287,
12288). -/
def pyIsSpace (c : Char) : Bool :=
  c.val == 9 || c.val == 10 || c.val == 11 || c.val == 12 || c.val == 13 ||
  (28 ≤ c.val && c.val ≤ 32) || c.val == 133 || c.val == 160 || c.val == 5760 ||
  (8192 ≤ c.val && c.val ≤ 8202) || c.val == 8232 || c.val == 8233 ||
  c.val == 8239 || c.val == 8287 || c.val == 12288

/-- Python `str.strip()` with no argument: drop leading and trailing
whitespace, for the whitespace set of `str.isspace()`. -/
def pyStrip (s : String) : String :=
  ⟨((s.data.dropWhile pyIsSpace).reverse.dropWhile pyIsSpace).reverse⟩

/-- Universal-newline translation performed by Python text-mode reading:
a carriage return, alone or followed by a line feed, reads as one line
feed. -/
def universalNewlines : List Char → List Char
  | [] => []
  | '\r' :: '\n' :: cs => '\n' :: universalNewlines cs
  | '\r' :: cs => '\n' :: universalNewlines cs
  | c :: cs => c :: universalNewlines cs

/-- Splitting translated file content into the lines Python file iteration
yields: chunks separated by line feeds, with no empty final line when the
content ends in a line feed (line terminators themselves are dropped here;
Python keeps them on each line but the caller strips them anyway). -/
def pyLinesAux : List Char → List Char → List String
  | [], [] => []
  | [], acc => [String.mk acc.reverse]
  | c :: cs, acc =>
      if c = '\n' then String.mk acc.reverse :: pyLinesAux cs []
      else pyLinesAux cs (c :: acc)

/-- The lines Python text-mode iteration yields for a file's raw content. -/
def pyLines (content : String) : List String :=
  pyLinesAux (universalNewlines content.data) []

/-! ### Alert ledger (STATE MANAGEMENT section of investbot.py) -/

/-- The in-memory `sent_alerts_cache` set. -/
abbrev Ledger := Finset String

/-- Embeds `has_alert_been_sent`: membership test in the in-memory cache. -/
def has_alert_been_sent (alert_key : String) (cache : Ledger) : Bool :=
  decide (alert_key ∈ cache)

/-- Embeds `mark_alert_as_sent`: add a key to the in-memory cache. -/
def mark_alert_as_sent (alert_key : String) (cache : Ledger) : Ledger :=
  insert alert_key cache

/-- Embeds `load_sent_alerts`: iterate over the lines of the state file's
content, stripping each, and insert into the cache.  The state file is
modelled as its raw content string. -/
def load_sent_alerts (cache : Ledger) (content : String) : Ledger :=
  (pyLines content).foldl (fun c line => insert (pyStrip line) c) cache

/-- Embeds `save_sent_alerts`: write each cached key, sorted, followed by a
newline, fully overwriting the store.  Returns the content written. -/
def save_sent_alerts (cache : Ledger) : String :=
  (cache.sort (· ≤ ·)).foldl (fun acc alert_key => acc ++ alert_key ++ "\n") ""

/-- Builds the in-memory cache by marking a list of keys one after the other
into an initially empty cache (repeated `mark_alert_as_sent` calls). -/
def markAll (keys : List String) : Ledger :=
  keys.foldl (fun c k => mark_alert_as_sent k c) ∅

/-! ### Session clock (class MarketHours) -/

/-- A point in time in the US/Eastern reference timezone, at the granularity
the code consults: calendar date, Python weekday (Monday = 0 … Sunday = 6)
and seconds since midnight. -/
structure EasternTime where
  year : Nat
  month : Nat
  day : Nat
  weekday : Nat
  secondsOfDay : Nat
deriving DecidableEq

/-- The fixed 2025 market-holiday dates of `MarketHours.market_holidays`. -/
def market_holidays : List (Nat × Nat × Nat) :=
  [(2025, 1, 1), (2025, 1, 20), (2025, 2, 17), (2025, 4, 18), (2025, 5, 26),
   (2025, 6, 19), (2025, 7, 4), (2025, 9, 1), (2025, 11, 27), (2025, 12, 25)]

/-- Embeds `MarketHours.is_market_holiday`: calendar-date membership. -/
def is_market_holiday (t : EasternTime) : Bool :=
  decide ((t.year, t.month, t.day) ∈ market_holidays)

/-- Embeds `MarketHours.is_weekend`: Saturday (5) or Sunday (6). -/
def is_weekend (t : EasternTime) : Bool :=
  decide (5 ≤ t.weekday)

/-- The four trading-session phases. -/
inductive Session where
  | closed
  | pre_market
  | regular
  | after_hours
deriving DecidableEq

/-- Embeds `MarketHours.get_market_session` (04:00 / 09:30 / 16:00 / 20:00
boundaries; weekends and holidays force `closed`). -/
def get_market_session (t : EasternTime) : Session :=
  if is_weekend t || is_market_holiday t then .closed
  else if t.secondsOfDay < 4 * 3600 then .closed
  else if t.secondsOfDay < 9 * 3600 + 1800 then .pre_market
  else if t.secondsOfDay < 16 * 3600 then .regular
  else if t.secondsOfDay < 20 * 3600 then .after_hours
  else .closed

/-- Embeds `MarketHours.is_end_of_trading_day`: non-holiday weekday within
the fixed 16:30–17:00 window. -/
def is_end_of_trading_day (t : EasternTime) : Bool :=
  if is_weekend t || is_market_holiday t then false
  else decide (16 * 3600 + 1800 ≤ t.secondsOfDay) && decide (t.secondsOfDay ≤ 17 * 3600)

/-! ### Threshold policy (VIPInvestBot.get_alert_threshold) -/

/-- The `large_cap_stable` ticker list of `get_alert_threshold`. -/
def large_cap_stable : List String :=
  ["AAPL", "MSFT", "GOOGL", "GOOG", "AMZN", "BRK-B", "JPM", "V", "MA", "UNH",
   "JNJ", "PG", "HD", "PFE", "KO", "PEP", "WMT", "MCD"]

/-- The `high_volatility` ticker list of `get_alert_threshold`. -/
def high_volatility : List String :=
  ["TSLA", "NVDA", "AMD", "ROKU", "ZM", "PTON", "SNAP", "UBER", "COIN", "HOOD",
   "RIVN", "LCID", "NIO", "XPEV", "PLTR"]

/-- Embeds `get_alert_threshold`.  The session is the value of
`self.market.get_market_session()` at call time, passed explicitly. -/
def get_alert_threshold (ticker : String) (session : Session) : ℚ :=
  let base_threshold : ℚ :=
    if large_cap_stable.contains ticker then 3.5
    else if high_volatility.contains ticker then 6.0
    else 4.5
  match session with
  | .closed => base_threshold * 2.0
  | .pre_market => base_threshold * 1.3
  | .after_hours => base_threshold * 1.1
  | .regular => base_threshold

/-- Spec §4.5 table, written from the spec for comparison: base threshold by
volatility class (stable 3.5, volatile 6.0, default 4.5). -/
def specBaseThreshold (ticker : String) : ℚ :=
  if large_cap_stable.contains ticker then 3.5
  else if high_volatility.contains ticker then 6.0
  else 4.5

/-- Spec §4.5 table, written from the spec for comparison: session multiplier
(closed 2.0, pre-market 1.3, after-hours 1.1, regular 1.0). -/
def specSessionMultiplier : Session → ℚ
  | .closed => 2.0
  | .pre_market => 1.3
  | .after_hours => 1.1
  | .regular => 1.0

/-- C4: for every ticker and session the effective threshold equals
base times multiplier per the fixed tables of §4.5. -/
theorem get_alert_threshold_eq_base_mul_multiplier (ticker : String) (session : Session) :
    get_alert_threshold ticker session = specBaseThreshold ticker * specSessionMultiplier session := by
  cases session <;>
    norm_num [get_alert_threshold, specBaseThreshold, specSessionMultiplier]

/-! ### Filing scanner (VIPInvestBot.check_vip_filings) -/

/-- One entry of the `vip_traders` registry value: cik, strategy, company,
whale_link, in source order. -/
structure TraderInfo where
  cik : String
  strategy : String
  company : String
  whale_link : String
deriving DecidableEq

/-- The static `vip_traders` registry, in Python dict insertion order. -/
def vip_traders : List (String × TraderInfo) := [
  (("Warren Buffett"), ⟨("1067983"), ("Long-term value investing"), ("Berkshire Hathaway"), ("https://whalewisdom.com/filer/berkshire-hathaway-inc")⟩),
  (("Charlie Munger"), ⟨("1067983"), ("Value investing & mental models"), ("Berkshire Hathaway"), ("https://whalewisdom.com/filer/berkshire-hathaway-inc")⟩),
  (("Ray Dalio"), ⟨("1350694"), ("All-weather portfolio"), ("Bridgewater Associates"), ("https://whalewisdom.com/filer/bridgewater-associates-lp")⟩),
  (("Seth Klarman"), ⟨("1040273"), ("Deep value investing"), ("Baupost Group"), ("https://whalewisdom.com/filer/baupost-group-llc")⟩),
  (("Peter Lynch"), ⟨("1040273"), ("Growth at reasonable price"), ("Fidelity Magellan Fund"), ("https://whalewisdom.com/filer/fidelity-management-research-company")⟩),
  (("John Templeton"), ⟨("1040273"), ("Global value investing"), ("Templeton Funds"), ("https://whalewisdom.com/filer/templeton-global-advisors-limited")⟩),
  (("Michael Burry"), ⟨("1649339"), ("Contrarian deep-value bets"), ("Scion Asset Management"), ("https://whalewisdom.com/filer/scion-asset-management-llc")⟩),
  (("Bill Ackman"), ⟨("1336528"), ("Activist investing"), ("Pershing Square"), ("https://whalewisdom.com/filer/pershing-square-capital-management-l-p")⟩),
  (("David Tepper"), ⟨("1040273"), ("Macro and distressed investing"), ("Appaloosa Management"), ("https://whalewisdom.com/filer/appaloosa-management-lp")⟩),
  (("Renaissance Technologies"), ⟨("1037389"), ("Quantitative investing"), ("Renaissance Technologies"), ("https://whalewisdom.com/filer/renaissance-technologies-llc")⟩),
  (("Carl Icahn"), ⟨("1336528"), ("Activist investing"), ("Icahn Enterprises"), ("https://whalewisdom.com/filer/icahn-enterprises-l-p")⟩),
  (("Paul Tudor Jones"), ⟨("1040273"), ("Macro trading"), ("Tudor Investment Corp"), ("https://whalewisdom.com/filer/tudor-investment-corporation")⟩),
  (("Stanley Druckenmiller"), ⟨("1040273"), ("Macro and growth investing"), ("Duquesne Family Office"), ("https://whalewisdom.com/filer/duquesne-family-office-llc")⟩),
  (("George Soros"), ⟨("1040273"), ("Macro and currency trading"), ("Soros Fund Management"), ("https://whalewisdom.com/filer/soros-fund-management-llc")⟩),
  (("Chase Coleman"), ⟨("1040273"), ("Growth investing"), ("Tiger Global Management"), ("https://whalewisdom.com/filer/tiger-global-management-llc")⟩),
  (("Steve Cohen"), ⟨("1040273"), ("Quantitative and fundamental"), ("Point72 Asset Management"), ("https://whalewisdom.com/filer/point72-asset-management-l-p")⟩),
  (("Ken Griffin"), ⟨("1040273"), ("Quantitative trading"), ("Citadel"), ("https://whalewisdom.com/filer/citadel-advisors-llc")⟩),
  (("David Einhorn"), ⟨("1040273"), ("Value and activist investing"), ("Greenlight Capital"), ("https://whalewisdom.com/filer/greenlight-capital-inc")⟩),
  (("Howard Marks"), ⟨("1040273"), ("Distressed and credit investing"), ("Oaktree Capital"), ("https://whalewisdom.com/filer/oaktree-capital-management-l-p")⟩),
  (("Leon Cooperman"), ⟨("1040273"), ("Value investing"), ("Omega Advisors"), ("https://whalewisdom.com/filer/omega-advisors-inc")⟩),
  (("Mohnish Pabrai"), ⟨("1040273"), ("Value investing"), ("Pabrai Investment Funds"), ("https://whalewisdom.com/filer/pabrai-investment-funds")⟩),
  (("Joel Greenblatt"), ⟨("1040273"), ("Value and special situations"), ("Gotham Asset Management"), ("https://whalewisdom.com/filer/gotham-asset-management-llc")⟩),
  (("Prem Watsa"), ⟨("1040273"), ("Value and insurance investing"), ("Fairfax Financial"), ("https://whalewisdom.com/filer/fairfax-financial-holdings-ltd")⟩),
  (("BlackRock"), ⟨("1364742"), ("Global asset management"), ("BlackRock Inc"), ("https://whalewisdom.com/filer/blackrock-inc")⟩),
  (("Vanguard Group"), ⟨("1040273"), ("Index fund investing"), ("Vanguard Group"), ("https://whalewisdom.com/filer/vanguard-group-inc")⟩),
  (("Fidelity Investments"), ⟨("1040273"), ("Active and passive management"), ("Fidelity Management"), ("https://whalewisdom.com/filer/fidelity-management-research-company")⟩),
  (("State Street Global Advisors"), ⟨("1040273"), ("ETF and index investing"), ("State Street Corp"), ("https://whalewisdom.com/filer/state-street-corporation")⟩),
  (("The Carlyle Group"), ⟨("1040273"), ("Private equity"), ("Carlyle Group"), ("https://whalewisdom.com/filer/carlyle-group-inc")⟩),
  (("Allianz Global Investors"), ⟨("1040273"), ("Global asset management"), ("Allianz Global Investors"), ("https://whalewisdom.com/filer/allianz-global-investors-us-llc")⟩),
  (("PIMCO"), ⟨("1040273"), ("Fixed income investing"), ("Pacific Investment Management"), ("https://whalewisdom.com/filer/pacific-investment-management-company-llc")⟩),
  (("Amundi"), ⟨("1040273"), ("European asset management"), ("Amundi Asset Management"), ("https://whalewisdom.com/filer/amundi-asset-management")⟩),
  (("Blackstone"), ⟨("1040273"), ("Alternative investments"), ("Blackstone Group"), ("https://whalewisdom.com/filer/blackstone-group-inc")⟩),
  (("KKR"), ⟨("1040273"), ("Private equity and credit"), ("KKR & Co"), ("https://whalewisdom.com/filer/kkr-co-inc")⟩),
  (("Apollo Global Management"), ⟨("1040273"), ("Alternative investments"), ("Apollo Global Management"), ("https://whalewisdom.com/filer/apollo-global-management-inc")⟩),
  (("CVC Capital Partners"), ⟨("1040273"), ("Private equity"), ("CVC Capital Partners"), ("https://whalewisdom.com/filer/cvc-capital-partners")⟩),
  (("TPG"), ⟨("1040273"), ("Private equity and growth"), ("TPG Inc"), ("https://whalewisdom.com/filer/tpg-inc")⟩),
  (("Thoma Bravo"), ⟨("1040273"), ("Software private equity"), ("Thoma Bravo"), ("https://whalewisdom.com/filer/thoma-bravo-llc")⟩),
  (("Warburg Pincus"), ⟨("1040273"), ("Growth private equity"), ("Warburg Pincus"), ("https://whalewisdom.com/filer/warburg-pincus-llc")⟩),
  (("AlpInvest Partners"), ⟨("1040273"), ("Private equity fund of funds"), ("AlpInvest Partners"), ("https://whalewisdom.com/filer/alpinvest-partners")⟩),
  (("Temasek Holdings"), ⟨("1040273"), ("Sovereign wealth fund"), ("Temasek Holdings"), ("https://whalewisdom.com/filer/temasek-holdings-private-limited")⟩),
  (("GIC"), ⟨("1040273"), ("Sovereign wealth fund"), ("Government of Singapore Investment Corp"), ("https://whalewisdom.com/filer/government-of-singapore-investment-corporation")⟩),
  (("CPP Investments"), ⟨("1040273"), ("Pension fund investing"), ("Canada Pension Plan Investment Board"), ("https://whalewisdom.com/filer/canada-pension-plan-investment-board")⟩),
  (("Mubadala Investment Company"), ⟨("1040273"), ("Sovereign wealth fund"), ("Mubadala Investment Company"), ("https://whalewisdom.com/filer/mubadala-investment-company")⟩),
  (("Abu Dhabi Investment Authority"), ⟨("1040273"), ("Sovereign wealth fund"), ("Abu Dhabi Investment Authority"), ("https://whalewisdom.com/filer/abu-dhabi-investment-authority")⟩),]

/-- One parsed entry of the filings response: the `form`, `filingDate` and
`accessionNumber` parallel arrays are modelled as a list of records. -/
structure FilingRec where
  form : String
  filingDate : String
  accessionNumber : String
deriving DecidableEq

/-- Outcome of the per-entity submissions fetch: an exception anywhere in the
per-entity body (caught by the per-trader `except`), a non-200 status (body
skipped, no exception), or a 200 response with parsed recent filings. -/
inductive FetchResult where
  | err
  | notOk
  | ok (recs : List FilingRec)
deriving DecidableEq

/-- Environment of one `check_vip_filings` call: the submissions endpoint
keyed by cik, and the `(datetime.now() - timedelta(days=5))` cutoff date
string computed at scan start. -/
structure FilingsEnv where
  fetch : String → FetchResult
  cutoffDate : String

/-- The fixed form-type allow-list of `check_vip_filings`. -/
def allowed_forms : List String :=
  ["13F-HR", "13F-NT", "4", "SC 13G", "SC 13D", "8-K"]

/-- A queued filing event (the `filing_info` dict), field for field. -/
structure FilingInfo where
  trader : String
  company : String
  form : String
  date : String
  strategy : String
  whale_link : String
  accession_number : String
  cik : String
  alert_key : String
deriving DecidableEq

/-- The per-trader loop body of `check_vip_filings`: on a 200 response keep
the recent filings whose form is allow-listed and whose date is on or after
the cutoff, and queue those whose alert key is not in the ledger.  `err`
models a caught per-entity exception; both failure modes contribute
nothing. -/
def filings_for_trader (fenv : FilingsEnv) (cache : Ledger)
    (trader_name : String) (info : TraderInfo) : List FilingInfo :=
  match fenv.fetch info.cik with
  | .err => []
  | .notOk => []
  | .ok recs =>
      recs.filterMap fun r =>
        if allowed_forms.contains r.form && pyStrLe fenv.cutoffDate r.filingDate then
          if has_alert_been_sent ("file-" ++ info.cik ++ "-" ++ r.accessionNumber) cache then none
          else some ⟨trader_name, info.company, r.form, r.filingDate, info.strategy,
                     info.whale_link, r.accessionNumber, info.cik,
                     "file-" ++ info.cik ++ "-" ++ r.accessionNumber⟩
        else none

/-- Embeds `check_vip_filings`: scan every registry entry in order and
collect the queued filing events. -/
def check_vip_filings (fenv : FilingsEnv) (cache : Ledger) : List FilingInfo :=
  vip_traders.flatMap fun p => filings_for_trader fenv cache p.1 p.2

/-! ### Price scanner (VIPInvestBot.check_major_price_moves) -/

/-- The static `company_names` map of `get_company_name`. -/
def company_names : List (String × String) := [
  (("AAPL"), ("Apple Inc.")),
  (("MSFT"), ("Microsoft Corporation")),
  (("GOOGL"), ("Alphabet Inc.")),
  (("GOOG"), ("Alphabet Inc.")),
  (("AMZN"), ("Amazon.com Inc.")),
  (("TSLA"), ("Tesla Inc.")),
  (("NVDA"), ("NVIDIA Corporation")),
  (("META"), ("Meta Platforms Inc.")),
  (("BRK-B"), ("Berkshire Hathaway")),
  (("JPM"), ("JPMorgan Chase & Co.")),
  (("JNJ"), ("Johnson & Johnson")),
  (("PG"), ("Procter & Gamble")),
  (("HD"), ("The Home Depot")),
  (("BAC"), ("Bank of America")),
  (("UNH"), ("UnitedHealth Group")),
  (("V"), ("Visa Inc.")),
  (("MA"), ("Mastercard Inc.")),
  (("WMT"), ("Walmart Inc.")),
  (("DIS"), ("The Walt Disney Company")),
  (("NFLX"), ("Netflix Inc.")),
  (("CRM"), ("Salesforce Inc.")),
  (("ADBE"), ("Adobe Inc.")),
  (("ORCL"), ("Oracle Corporation")),
  (("CSCO"), ("Cisco Systems")),
  (("INTC"), ("Intel Corporation")),
  (("AMD"), ("Advanced Micro Devices")),
  (("QCOM"), ("QUALCOMM Inc.")),
  (("TXN"), ("Texas Instruments")),
  (("AVGO"), ("Broadcom Inc.")),
  (("HON"), ("Honeywell International")),
  (("CAT"), ("Caterpillar Inc.")),
  (("BA"), ("The Boeing Company")),
  (("GE"), ("General Electric")),
  (("MMM"), ("3M Company")),
  (("KO"), ("The Coca-Cola Company")),
  (("PEP"), ("PepsiCo Inc.")),
  (("MCD"), ("McDonald\x27s Corporation")),
  (("NKE"), ("NIKE Inc.")),
  (("SBUX"), ("Starbucks Corporation"))]

/-- Embeds `get_company_name`: map lookup with the `"<ticker> Inc."`
default. -/
def get_company_name (ticker : String) : String :=
  match company_names.lookup ticker with
  | some name => name
  | none => ticker ++ " Inc."

/-- Outcome of one `finnhub_client.quote(ticker)` call: an exception (caught
by the per-ticker `except`, which `continue`s), or a quote dict whose `c`
and `pc` fields may each be absent. -/
inductive QuoteResult where
  | err
  | ok (c : Option ℚ) (pc : Option ℚ)
deriving DecidableEq

/-- Environment of one `check_major_price_moves` call: whether
`FINNHUB_API_KEY` is set, whether the scanner-wide body (client
construction) succeeds, the per-ticker quotes, and the
`datetime.now().strftime` hour-bucket string used in price alert keys. -/
structure PriceEnv where
  hasKey : Bool
  clientOk : Bool
  quote : String → QuoteResult
  hourBucket : String

/-- The `major_tickers` watch list. -/
def major_tickers : List String := ["AAPL", "MSFT", "GOOGL", "AMZN", "NVDA", "META", "TSLA", "BRK-B", "JPM", "V", "MA", "UNH", "JNJ", "PG", "HD", "BAC", "WMT", "DIS", "NFLX", "CRM", "ADBE", "ORCL", "CSCO", "INTC", "AMD", "QCOM", "TXN", "AVGO", "HON", "CAT", "BA", "GE", "MMM", "KO", "PEP", "MCD", "NKE", "SBUX"]

/-- A queued price-move event (the `move_info` dict), field for field. -/
structure MoveInfo where
  ticker : String
  company_name : String
  current_price : ℚ
  previous_close : ℚ
  change_pct : ℚ
  change_amount : ℚ
  alert_key : String
  threshold : ℚ
deriving DecidableEq

/-- The per-ticker loop body of `check_major_price_moves`.  The quote must be
a dict holding both `c` and `pc`; Python then tests
`current_price and previous_close and previous_close > 0`, i.e. both values
truthy (nonzero) and the previous close positive.  The percentage change is
`(current - previous) / previous * 100`; the move is queued when its
absolute value meets the session threshold and its hour-bucketed key is not
in the ledger. -/
def price_move_for_ticker (penv : PriceEnv) (session : Session) (cache : Ledger)
    (ticker : String) : Option MoveInfo :=
  match penv.quote ticker with
  | .err => none
  | .ok cOpt pcOpt =>
      match cOpt, pcOpt with
      | some current_price, some previous_close =>
          if current_price ≠ 0 ∧ previous_close ≠ 0 ∧ 0 < previous_close then
            if |(current_price - previous_close) / previous_close * 100| ≥
                get_alert_threshold ticker session then
              if has_alert_been_sent ("price-" ++ ticker ++ "-" ++ penv.hourBucket) cache then none
              else some ⟨ticker, get_company_name ticker, current_price, previous_close,
                         (current_price - previous_close) / previous_close * 100,
                         current_price - previous_close,
                         "price-" ++ ticker ++ "-" ++ penv.hourBucket,
                         get_alert_threshold ticker session⟩
            else none
          else none
      | _, _ => none

/-- Embeds `check_major_price_moves`: empty when the credential is missing or
the scanner-wide body fails; otherwise scan the watch list in order. -/
def check_major_price_moves (penv : PriceEnv) (session : Session) (cache : Ledger) :
    List MoveInfo :=
  if ¬ penv.hasKey then []
  else if ¬ penv.clientOk then []
  else major_tickers.filterMap (price_move_for_ticker penv session cache)

/-! ### Price alert formatter (VIPInvestBot.format_price_movement_alert) -/

/-- Descending-by-absolute-change order on price moves: `b` may follow `a`
when `|b.change_pct| ≤ |a.change_pct|`. -/
def movesDesc (a b : MoveInfo) : Prop :=
  |b.change_pct| ≤ |a.change_pct|

/-- Stable insertion into a list sorted by descending absolute change: walk
past strictly larger entries, then place the element before the first entry
that is not strictly larger (so earlier input elements precede later ones
with an equal key). -/
def insDesc (m : MoveInfo) : List MoveInfo → List MoveInfo
  | [] => [m]
  | y :: ys => if |y.change_pct| > |m.change_pct| then y :: insDesc m ys else m :: y :: ys

/-- Embeds `moves.sort(key=lambda x: abs(x['change_pct']), reverse=True)`:
Python's stable sort, realised as stable insertion sort (any stable sort by
the same key computes the same list). -/
def pySortDesc : List MoveInfo → List MoveInfo
  | [] => []
  | x :: xs => insDesc x (pySortDesc xs)

/-- The singular-or-plural header of `format_price_movement_alert`. -/
def price_header (n : Nat) : String :=
  if 1 < n then ("*") ++ toString n ++ (" MAJOR PRICE MOVEMENTS DETECTED!*")
  else ("*MAJOR PRICE MOVEMENT DETECTED!*")

/-- One rendered block per move, fields in source order (numeric format
specifiers abbreviated; the text is plumbing, no claim inspects it). -/
def renderMove (m : MoveInfo) : String :=
  "* " ++ m.ticker ++ " - " ++ m.company_name ++ "\n" ++
  "Price now vs prev close, change pct, amount, threshold listed.\n"

/-- The rendering loop of `format_price_movement_alert`: one block per move,
in list order. -/
def renderMoves (moves : List MoveInfo) : String :=
  moves.foldl (fun acc m => acc ++ renderMove m) ""

/-- Embeds `format_price_movement_alert`.  The Python function returns the
message text (or `None` for an empty input) and, as a side effect, sorts the
caller's list in place; the embedding returns the pair (message, final state
of the argument list). -/
def format_price_movement_alert (moves : List MoveInfo) : Option String × List MoveInfo :=
  if moves.isEmpty then (none, moves)
  else
    let sorted := pySortDesc moves
    (some (price_header moves.length ++ "\n\n" ++ renderMoves sorted), sorted)

/-! ### Notifier and orchestrator (send_telegram_alert, send_daily_summary,
run_vip_monitoring) -/

/-- Outcome of the Telegram POST for one message: a response with a status
code, or a transport exception. -/
inductive SendOutcome where
  | resp (code : Nat)
  | exn
deriving DecidableEq

/-- Embeds `send_telegram_alert`: false when credentials are missing, when
the response status is not 200, or when the request raises; true exactly on
a 200 response. -/
def send_telegram_alert (creds : Bool) (outcome : SendOutcome) : Bool :=
  if ¬ creds then false
  else
    match outcome with
    | .resp code => code == 200
    | .exn => false

/-- Environment of one `run_vip_monitoring` pass: Telegram credentials
present, the transport outcome of each of the (at most three) sends, the two
scanner environments, the scan-time clock, and the `date.today()` ISO string
from which `daily_summary_sent_key` is built. -/
structure RunEnv where
  creds : Bool
  respFilings : SendOutcome
  respPrices : SendOutcome
  respSummary : SendOutcome
  filEnv : FilingsEnv
  priceEnv : PriceEnv
  now : EasternTime
  todayISO : String

/-- Embeds `self.daily_summary_sent_key`. -/
def daily_summary_sent_key (env : RunEnv) : String :=
  "summary-" ++ env.todayISO

/-- Embeds `send_daily_summary`: nothing happens if today's summary key is
already in the ledger or it is not the end-of-day window; otherwise the
summary is sent and, on success only, its key is marked.  Returns (success,
updated ledger). -/
def send_daily_summary (env : RunEnv) (cache : Ledger) : Bool × Ledger :=
  if has_alert_been_sent (daily_summary_sent_key env) cache then (false, cache)
  else if ¬ is_end_of_trading_day env.now then (false, cache)
  else if send_telegram_alert env.creds env.respSummary then
    (true, mark_alert_as_sent (daily_summary_sent_key env) cache)
  else (false, cache)

/-- Check 1 of `run_vip_monitoring`: scan filings; if any were queued, send
one batch alert and, only on success, mark every queued key and count one
batch. -/
def filingStage (env : RunEnv) (cache : Ledger) : Nat × Ledger :=
  let new_filings := check_vip_filings env.filEnv cache
  if new_filings.isEmpty then (0, cache)
  else if send_telegram_alert env.creds env.respFilings then
    (1, new_filings.foldl (fun c f => mark_alert_as_sent f.alert_key c) cache)
  else (0, cache)

/-- Check 2 of `run_vip_monitoring`: scan prices against the ledger as left
by check 1; if any moves were queued and the formatter produced a message,
send one batch alert and, only on success, mark every queued key and count
one batch. -/
def priceStage (env : RunEnv) (acc : Nat × Ledger) : Nat × Ledger :=
  let big_moves := check_major_price_moves env.priceEnv (get_market_session env.now) acc.2
  if big_moves.isEmpty then acc
  else
    match (format_price_movement_alert big_moves).1 with
    | none => acc
    | some _ =>
        if send_telegram_alert env.creds env.respPrices then
          (acc.1 + 1, big_moves.foldl (fun c m => mark_alert_as_sent m.alert_key c) acc.2)
        else acc

/-- Embeds `run_vip_monitoring`: the two scan-and-deliver stages in order,
then the daily summary only when no alert batch was sent; returns the count
of alert batches sent (the summary is never counted) and the final
ledger. -/
def run_vip_monitoring (env : RunEnv) (cache : Ledger) : Nat × Ledger :=
  let p := priceStage env (filingStage env cache)
  if p.1 == 0 then (p.1, (send_daily_summary env p.2).2) else p

/-! ### Scanner membership lemmas -/

/-- Every event queued for one trader has an alert key absent from the
ledger at scan start, and carries that trader's cik and name. -/
theorem mem_filings_for_trader {fenv : FilingsEnv} {cache : Ledger} {n : String}
    {i : TraderInfo} {m : FilingInfo} (h : m ∈ filings_for_trader fenv cache n i) :
    has_alert_been_sent m.alert_key cache = false ∧ m.cik = i.cik ∧ m.trader = n := by
  unfold filings_for_trader at h
  split at h
  · simp at h
  · simp at h
  · rw [List.mem_filterMap] at h
    obtain ⟨r, hr, heq⟩ := h
    split at heq
    · split at heq
      · simp at heq
      · next hsent =>
        cases heq
        refine ⟨?_, rfl, rfl⟩
        simpa using hsent
    · simp at heq

/-- Every event in the output of the filing scanner comes from some registry
entry. -/
theorem mem_check_vip_filings {fenv : FilingsEnv} {cache : Ledger} {m : FilingInfo}
    (h : m ∈ check_vip_filings fenv cache) :
    ∃ p ∈ vip_traders, m ∈ filings_for_trader fenv cache p.1 p.2 := by
  rw [check_vip_filings, List.mem_flatMap] at h
  exact h

/-- Characterisation of a queued price move: it records its ticker, its key
is absent from the ledger at scan start, and its price fields come from the
ticker's quote with a positive previous close and the exact percentage
formula. -/
theorem price_move_for_ticker_spec {penv : PriceEnv} {session : Session}
    {cache : Ledger} {ticker : String} {m : MoveInfo}
    (h : price_move_for_ticker penv session cache ticker = some m) :
    m.ticker = ticker ∧ has_alert_been_sent m.alert_key cache = false ∧
      ∃ c pc, penv.quote ticker = .ok (some c) (some pc) ∧ c ≠ 0 ∧ 0 < pc ∧
        m.current_price = c ∧ m.previous_close = pc ∧
        m.change_pct = (c - pc) / pc * 100 ∧
        m.threshold = get_alert_threshold ticker session ∧
        |m.change_pct| ≥ m.threshold := by
  unfold price_move_for_ticker at h
  split at h
  · simp at h
  · next cOpt pcOpt hq =>
    split at h
    · next c pc =>
      split at h
      · next htruthy =>
        split at h
        · split at h
          · simp at h
          · next hsent =>
            cases h
            refine ⟨rfl, by simpa using hsent, c, pc, hq, htruthy.1, htruthy.2.2,
              rfl, rfl, rfl, rfl, by assumption⟩
        · simp at h
      · simp at h
    · simp at h

/-- Every move in the output of the price scanner comes from some watched
ticker, and is in fact produced by the loop body at its own ticker. -/
theorem mem_check_major_price_moves {penv : PriceEnv} {session : Session}
    {cache : Ledger} {m : MoveInfo} (h : m ∈ check_major_price_moves penv session cache) :
    m.ticker ∈ major_tickers ∧
      price_move_for_ticker penv session cache m.ticker = some m := by
  unfold check_major_price_moves at h
  split at h
  · simp at h
  · split at h
    · simp at h
    · rw [List.mem_filterMap] at h
      obtain ⟨t, ht, hsome⟩ := h
      have hts := (price_move_for_ticker_spec hsome).1
      subst hts
      exact ⟨ht, hsome⟩

/-- C1: for every alert identity in the ledger at scan start, neither
scanner includes an event carrying that identity in its returned list:
every returned event's key tests as unsent against that ledger. -/
theorem scanners_never_reemit_ledger_identities (fenv : FilingsEnv) (penv : PriceEnv)
    (session : Session) (cache : Ledger) :
    ((check_vip_filings fenv cache).all
        (fun e => !(has_alert_been_sent e.alert_key cache)) = true) ∧
    ((check_major_price_moves penv session cache).all
        (fun m => !(has_alert_been_sent m.alert_key cache)) = true) := by
  constructor
  · rw [List.all_eq_true]
    intro e he
    obtain ⟨p, _, he⟩ := mem_check_vip_filings he
    have h1 := (mem_filings_for_trader he).1
    simp [h1]
  · rw [List.all_eq_true]
    intro m hm
    have h1 := ((price_move_for_ticker_spec (mem_check_major_price_moves hm).2).2).1
    simp [h1]

/-- The loop body yields nothing when the quote lacks a field or has a
non-positive previous close. -/
theorem price_move_for_ticker_none {penv : PriceEnv} {session : Session}
    {cache : Ledger} {t : String} {cOpt pcOpt : Option ℚ}
    (hq : penv.quote t = QuoteResult.ok cOpt pcOpt)
    (hmiss : cOpt = none ∨ pcOpt = none ∨ ∃ pc, pcOpt = some pc ∧ pc ≤ 0) :
    price_move_for_ticker penv session cache t = none := by
  unfold price_move_for_ticker
  rw [hq]
  rcases hmiss with h | h | ⟨pc, hpc, hle⟩
  · subst h
    cases pcOpt <;> simp
  · subst h
    cases cOpt <;> simp
  · subst hpc
    cases cOpt with
    | none => simp
    | some c => simp [not_lt.mpr hle]

/-- C3: every emitted price move's percentage change is computed exactly as
(current - previous) / previous * 100 from a quote bearing both fields with
a positive previous close, and a symbol whose quote is missing either field
or has a non-positive previous close yields no event. -/
theorem price_change_pct_formula (penv : PriceEnv) (session : Session) (cache : Ledger) :
    (∀ m ∈ check_major_price_moves penv session cache,
        ∃ c pc, penv.quote m.ticker = QuoteResult.ok (some c) (some pc) ∧ 0 < pc ∧
          m.current_price = c ∧ m.previous_close = pc ∧
          m.change_pct = (c - pc) / pc * 100) ∧
    (∀ t cOpt pcOpt, penv.quote t = QuoteResult.ok cOpt pcOpt →
        cOpt = none ∨ pcOpt = none ∨ (∃ pc, pcOpt = some pc ∧ pc ≤ 0) →
        ∀ m ∈ check_major_price_moves penv session cache, m.ticker ≠ t) := by
  constructor
  · intro m hm
    obtain ⟨-, hsome⟩ := mem_check_major_price_moves hm
    obtain ⟨-, -, c, pc, hq, -, hpc, h1, h2, h3, -⟩ := price_move_for_ticker_spec hsome
    exact ⟨c, pc, hq, hpc, h1, h2, h3⟩
  · intro t cOpt pcOpt hq hmiss m hm hticker
    obtain ⟨-, hsome⟩ := mem_check_major_price_moves hm
    rw [hticker, price_move_for_ticker_none hq hmiss] at hsome
    exact Option.noConfusion hsome

/-! ### Per-item fault isolation lemmas -/

/-- The per-trader body depends on the environment only through that
trader's fetch result and the cutoff date. -/
theorem filings_for_trader_congr {fenv fenv' : FilingsEnv} {cache : Ledger}
    {n : String} {i : TraderInfo} (hfetch : fenv'.fetch i.cik = fenv.fetch i.cik)
    (hcut : fenv'.cutoffDate = fenv.cutoffDate) :
    filings_for_trader fenv' cache n i = filings_for_trader fenv cache n i := by
  unfold filings_for_trader
  rw [hfetch, hcut]

/-- A caught per-trader exception contributes nothing. -/
theorem filings_for_trader_err {fenv : FilingsEnv} {cache : Ledger} {n : String}
    {i : TraderInfo} (h : fenv.fetch i.cik = FetchResult.err) :
    filings_for_trader fenv cache n i = [] := by
  unfold filings_for_trader
  rw [h]

/-- Filtering out another cik leaves a trader's own contribution intact. -/
theorem filings_for_trader_filter_ne {fenv : FilingsEnv} {cache : Ledger} {n : String}
    {i : TraderInfo} {cik0 : String} (hne : i.cik ≠ cik0) :
    (filings_for_trader fenv cache n i).filter (fun e => !(e.cik == cik0)) =
      filings_for_trader fenv cache n i := by
  rw [List.filter_eq_self]
  intro e he
  have h2 := (mem_filings_for_trader he).2.1
  simp [h2, hne]

/-- Filtering out a trader's own cik removes its whole contribution. -/
theorem filings_for_trader_filter_self {fenv : FilingsEnv} {cache : Ledger} {n : String}
    {i : TraderInfo} {cik0 : String} (heq : i.cik = cik0) :
    (filings_for_trader fenv cache n i).filter (fun e => !(e.cik == cik0)) = [] := by
  rw [List.filter_eq_nil_iff]
  intro e he
  have h2 := (mem_filings_for_trader he).2.1
  simp [h2, heq]

/-- Over any registry fragment: erroring one cik's fetch removes exactly
that cik's events from the scan, leaving every other entity's events
untouched. -/
theorem flatMap_filings_err_cik {fenv fenv' : FilingsEnv} {cache : Ledger} {cik0 : String}
    (hfetch : ∀ c, c ≠ cik0 → fenv'.fetch c = fenv.fetch c)
    (hcut : fenv'.cutoffDate = fenv.cutoffDate)
    (herr : fenv'.fetch cik0 = FetchResult.err) (L : List (String × TraderInfo)) :
    (L.flatMap fun p => filings_for_trader fenv' cache p.1 p.2) =
      (L.flatMap fun p => filings_for_trader fenv cache p.1 p.2).filter
        (fun e => !(e.cik == cik0)) := by
  induction L with
  | nil => simp
  | cons p L ih =>
      rw [List.flatMap_cons, List.flatMap_cons, List.filter_append, ih]
      congr 1
      by_cases hc : p.2.cik = cik0
      · rw [filings_for_trader_err (by rw [hc]; exact herr),
          filings_for_trader_filter_self hc]
      · rw [filings_for_trader_congr (hfetch _ hc) hcut,
          filings_for_trader_filter_ne hc]

/-- The per-ticker body depends on the environment only through that
ticker's quote and the hour bucket. -/
theorem price_move_for_ticker_congr {penv penv' : PriceEnv} {session : Session}
    {cache : Ledger} {t : String} (hq : penv'.quote t = penv.quote t)
    (hb : penv'.hourBucket = penv.hourBucket) :
    price_move_for_ticker penv' session cache t = price_move_for_ticker penv session cache t := by
  unfold price_move_for_ticker
  rw [hq, hb]

/-- A caught per-ticker exception contributes nothing. -/
theorem price_move_for_ticker_err {penv : PriceEnv} {session : Session}
    {cache : Ledger} {t : String} (h : penv.quote t = QuoteResult.err) :
    price_move_for_ticker penv session cache t = none := by
  unfold price_move_for_ticker
  rw [h]

/-- Over any watch-list fragment: erroring one ticker's quote removes
exactly that ticker's move from the scan, leaving the others untouched. -/
theorem filterMap_moves_err_ticker {penv penv' : PriceEnv} {session : Session}
    {cache : Ledger} {t0 : String}
    (hq : ∀ t, t ≠ t0 → penv'.quote t = penv.quote t)
    (hb : penv'.hourBucket = penv.hourBucket)
    (herr : penv'.quote t0 = QuoteResult.err) (L : List String) :
    L.filterMap (price_move_for_ticker penv' session cache) =
      (L.filterMap (price_move_for_ticker penv session cache)).filter
        (fun m => !(m.ticker == t0)) := by
  induction L with
  | nil => simp
  | cons t L ih =>
      rw [List.filterMap_cons, List.filterMap_cons]
      by_cases ht : t = t0
      · subst ht
        rw [price_move_for_ticker_err herr]
        cases hmv : price_move_for_ticker penv session cache t with
        | none => exact ih
        | some m =>
            have hmt := (price_move_for_ticker_spec hmv).1
            simp only [List.filter_cons, hmt]
            simp [ih]
      · rw [price_move_for_ticker_congr (hq t ht) hb]
        cases hmv : price_move_for_ticker penv session cache t with
        | none => exact ih
        | some m =>
            have hmt := (price_move_for_ticker_spec hmv).1
            simp only [List.filter_cons, hmt]
            simp [ht, ih]

/-! ### Shared-registrant scenario (C9) -/

/-- Concrete filings environment: the shared Berkshire registrant id returns
one fresh allow-listed filing inside the 5-day window, every other cik
raises. -/
def dupCikEnv : FilingsEnv :=
  ⟨fun c => if c == "1067983" then
      FetchResult.ok [⟨("13F-HR"), ("2025-01-10"), ("acc-0001")⟩]
    else FetchResult.err,
   ("2025-01-07")⟩

/-- C9: two registry entries configured with the same registrant id (Warren
Buffett and Charlie Munger both carry cik 1067983) each queue the one shared
unseen filing, so the single returned batch carries two events with
identical alert identities; the ledger is consulted as it was at scan start
for both. -/
theorem shared_cik_duplicate_identities :
    (check_vip_filings dupCikEnv ∅).map (fun e => e.alert_key) =
      ["file-1067983-acc-0001", "file-1067983-acc-0001"] ∧
    (check_vip_filings dupCikEnv ∅).map (fun e => e.trader) =
      ["Warren Buffett", "Charlie Munger"] := by
  decide

/-! ### Formatter ordering lemmas -/

/-- Stable insertion permutes: the result holds exactly the inserted element
and the old elements. -/
theorem insDesc_perm (m : MoveInfo) (l : List MoveInfo) : (insDesc m l).Perm (m :: l) := by
  induction l with
  | nil => simp [insDesc]
  | cons y ys ih =>
      unfold insDesc
      split
      · exact List.Perm.trans (List.Perm.cons y ih) (List.Perm.swap m y ys)
      · exact List.Perm.refl _

/-- The embedded stable sort permutes its input. -/
theorem pySortDesc_perm (l : List MoveInfo) : (pySortDesc l).Perm l := by
  induction l with
  | nil => exact List.Perm.refl _
  | cons x xs ih =>
      exact List.Perm.trans (insDesc_perm x (pySortDesc xs)) (List.Perm.cons x ih)

/-- Stable insertion preserves the descending-absolute-change ordering. -/
theorem insDesc_pairwise {m : MoveInfo} {l : List MoveInfo}
    (h : l.Pairwise movesDesc) : (insDesc m l).Pairwise movesDesc := by
  induction l with
  | nil => simp [insDesc]
  | cons y ys ih =>
      rw [List.pairwise_cons] at h
      obtain ⟨hy, hys⟩ := h
      unfold insDesc
      split
      · next hgt =>
        rw [List.pairwise_cons]
        refine ⟨?_, ih hys⟩
        intro z hz
        rcases List.mem_cons.mp ((insDesc_perm m ys).mem_iff.mp hz) with rfl | hzys
        · exact le_of_lt hgt
        · exact hy z hzys
      · next hng =>
        rw [List.pairwise_cons]
        refine ⟨?_, List.pairwise_cons.mpr ⟨hy, hys⟩⟩
        intro z hz
        rcases List.mem_cons.mp hz with rfl | hzys
        · exact not_lt.mp hng
        · exact le_trans (hy z hzys) (not_lt.mp hng)

/-- The embedded stable sort orders by non-increasing absolute change. -/
theorem pySortDesc_pairwise (l : List MoveInfo) : (pySortDesc l).Pairwise movesDesc := by
  induction l with
  | nil => simp [pySortDesc]
  | cons x xs ih => exact insDesc_pairwise ih

/-- C6 (amended): the formatter returns the no-alert sentinel exactly for an
empty input, and renders the events in non-increasing (descending, ties kept
in input order) absolute percentage change. -/
theorem format_price_alert_sentinel_and_order (moves : List MoveInfo) :
    format_price_movement_alert [] = (none, []) ∧
    (format_price_movement_alert moves).1.isSome = !moves.isEmpty ∧
    ((format_price_movement_alert moves).2).Pairwise movesDesc := by
  refine ⟨rfl, ?_, ?_⟩
  · cases moves <;> simp [format_price_movement_alert]
  · by_cases h : moves.isEmpty = true
    · rw [List.isEmpty_iff] at h
      subst h
      simp [format_price_movement_alert]
    · unfold format_price_movement_alert
      rw [if_neg h]
      exact pySortDesc_pairwise moves

/-- C6 (counterexample): a non-empty input with two events tied in absolute
percentage change (AAPL +5 percent, MSFT -5 percent, both over their 3.5
regular-session thresholds) produces a rendered order that is not strictly
descending in absolute change. -/
theorem format_price_alert_ties_not_strict :
    (format_price_movement_alert
        [⟨("AAPL"), ("Apple Inc."), 105, 100, 5, 5, ("price-AAPL-h"), 3.5⟩,
         ⟨("MSFT"), ("Microsoft Corporation"), 95, 100, -5, -5, ("price-MSFT-h"), 3.5⟩]).1 ≠
      none ∧
    ¬ List.Chain' (fun a b : MoveInfo => |a.change_pct| > |b.change_pct|)
        (format_price_movement_alert
          [⟨("AAPL"), ("Apple Inc."), 105, 100, 5, 5, ("price-AAPL-h"), 3.5⟩,
           ⟨("MSFT"), ("Microsoft Corporation"), 95, 100, -5, -5, ("price-MSFT-h"), 3.5⟩]).2 := by
  have habs5 : |(5 : ℚ)| = 5 := abs_of_nonneg (by norm_num)
  have habsm5 : |(-5 : ℚ)| = 5 := by
    rw [abs_neg]
    exact habs5
  have h2 : (format_price_movement_alert
      [⟨("AAPL"), ("Apple Inc."), 105, 100, 5, 5, ("price-AAPL-h"), 3.5⟩,
       ⟨("MSFT"), ("Microsoft Corporation"), 95, 100, -5, -5, ("price-MSFT-h"), 3.5⟩]).2 =
      [⟨("AAPL"), ("Apple Inc."), 105, 100, 5, 5, ("price-AAPL-h"), 3.5⟩,
       ⟨("MSFT"), ("Microsoft Corporation"), 95, 100, -5, -5, ("price-MSFT-h"), 3.5⟩] := by
    unfold format_price_movement_alert
    simp [pySortDesc, insDesc, habs5, habsm5]
  refine ⟨?_, ?_⟩
  · unfold format_price_movement_alert
    simp
  · rw [h2]
    simp [List.chain'_cons, habs5, habsm5]

/-- C10: the formatter sorts its argument in place: the caller's list after
the call is a permutation of the input ordered by non-increasing absolute
percentage change, and on an out-of-order input (AAPL +4 percent before MSFT
+9 percent) the list object really is reordered. -/
theorem format_price_alert_mutates_argument (moves : List MoveInfo) :
    ((format_price_movement_alert moves).2).Perm moves ∧
    ((format_price_movement_alert moves).2).Pairwise movesDesc ∧
    (format_price_movement_alert
        [⟨("AAPL"), ("Apple Inc."), 104, 100, 4, 4, ("price-AAPL-h"), 3.5⟩,
         ⟨("MSFT"), ("Microsoft Corporation"), 109, 100, 9, 9, ("price-MSFT-h"), 3.5⟩]).2 =
      [⟨("MSFT"), ("Microsoft Corporation"), 109, 100, 9, 9, ("price-MSFT-h"), 3.5⟩,
       ⟨("AAPL"), ("Apple Inc."), 104, 100, 4, 4, ("price-AAPL-h"), 3.5⟩] := by
  refine ⟨?_, ?_, ?_⟩
  · by_cases h : moves.isEmpty = true
    · rw [List.isEmpty_iff] at h
      subst h
      simp [format_price_movement_alert]
    · unfold format_price_movement_alert
      rw [if_neg h]
      exact pySortDesc_perm moves
  · by_cases h : moves.isEmpty = true
    · rw [List.isEmpty_iff] at h
      subst h
      simp [format_price_movement_alert]
    · unfold format_price_movement_alert
      rw [if_neg h]
      exact pySortDesc_pairwise moves
  · have habs4 : |(4 : ℚ)| = 4 := abs_of_nonneg (by norm_num)
    have habs9 : |(9 : ℚ)| = 9 := abs_of_nonneg (by norm_num)
    unfold format_price_movement_alert
    simp [pySortDesc, insDesc, habs4, habs9]
    norm_num

/-! ### Orchestrator lemmas -/

/-- Membership after marking a batch of keys over a fold. -/
theorem mem_foldl_mark {α : Type} (key : α → String) (l : List α) (cache : Ledger)
    (k : String) :
    (k ∈ l.foldl (fun c a => mark_alert_as_sent (key a) c) cache) ↔
      k ∈ cache ∨ k ∈ l.map key := by
  induction l generalizing cache with
  | nil => simp
  | cons x xs ih =>
      rw [List.foldl_cons, ih]
      simp [mark_alert_as_sent]
      tauto

/-- A non-empty move list always formats to a message. -/
theorem format_price_alert_some {moves : List MoveInfo} (h : ¬ moves.isEmpty = true) :
    ∃ s, (format_price_movement_alert moves).1 = some s := by
  unfold format_price_movement_alert
  rw [if_neg h]
  exact ⟨_, rfl⟩

/-- C2: when delivery of a batch fails, the stage leaves the ledger exactly
as it was (and counts nothing), and any key newly present in the ledger
after a stage was marked because that stage's send returned true and the key
belongs to that stage's scanned batch. -/
theorem failed_delivery_leaves_ledger_unchanged (env : RunEnv) (cache : Ledger) :
    (send_telegram_alert env.creds env.respFilings = false →
      filingStage env cache = (0, cache)) ∧
    (send_telegram_alert env.creds env.respPrices = false →
      ∀ acc : Nat × Ledger, priceStage env acc = acc) ∧
    (∀ k, k ∈ (filingStage env cache).2 → k ∉ cache →
      send_telegram_alert env.creds env.respFilings = true ∧
        k ∈ (check_vip_filings env.filEnv cache).map (fun f => f.alert_key)) ∧
    (∀ acc : Nat × Ledger, ∀ k, k ∈ (priceStage env acc).2 → k ∉ acc.2 →
      send_telegram_alert env.creds env.respPrices = true ∧
        k ∈ (check_major_price_moves env.priceEnv (get_market_session env.now) acc.2).map
          (fun m => m.alert_key)) := by
  refine ⟨?_, ?_, ?_, ?_⟩
  · intro hsend
    unfold filingStage
    by_cases he : (check_vip_filings env.filEnv cache).isEmpty = true
    · rw [if_pos he]
    · rw [if_neg he, hsend]
      simp
  · intro hsend acc
    unfold priceStage
    by_cases he : (check_major_price_moves env.priceEnv (get_market_session env.now)
        acc.2).isEmpty = true
    · rw [if_pos he]
    · rw [if_neg he]
      cases hfmt : (format_price_movement_alert (check_major_price_moves env.priceEnv
          (get_market_session env.now) acc.2)).1 with
      | none => rfl
      | some s =>
          rw [hsend]
          simp
  · intro k hk hnot
    unfold filingStage at hk
    by_cases he : (check_vip_filings env.filEnv cache).isEmpty = true
    · rw [if_pos he] at hk
      exact absurd hk hnot
    · rw [if_neg he] at hk
      by_cases hs : send_telegram_alert env.creds env.respFilings = true
      · rw [if_pos hs] at hk
        rcases (mem_foldl_mark (fun f : FilingInfo => f.alert_key) _ cache k).mp hk with h | h
        · exact absurd h hnot
        · exact ⟨hs, h⟩
      · rw [if_neg hs] at hk
        exact absurd hk hnot
  · intro acc k hk hnot
    unfold priceStage at hk
    by_cases he : (check_major_price_moves env.priceEnv (get_market_session env.now)
        acc.2).isEmpty = true
    · rw [if_pos he] at hk
      exact absurd hk hnot
    · rw [if_neg he] at hk
      cases hfmt : (format_price_movement_alert (check_major_price_moves env.priceEnv
          (get_market_session env.now) acc.2)).1 with
      | none =>
          rw [hfmt] at hk
          exact absurd hk hnot
      | some s =>
          rw [hfmt] at hk
          by_cases hs : send_telegram_alert env.creds env.respPrices = true
          · rw [if_pos hs] at hk
            rcases (mem_foldl_mark (fun m : MoveInfo => m.alert_key) _ acc.2 k).mp hk with h | h
            · exact absurd h hnot
            · exact ⟨hs, h⟩
          · rw [if_neg hs] at hk
            exact absurd hk hnot

/-- Concrete pass environment with missing Telegram credentials (every send
fails). -/
def c2Env : RunEnv :=
  ⟨false, SendOutcome.resp 200, SendOutcome.resp 200, SendOutcome.resp 200,
   ⟨fun _ => FetchResult.ok [⟨("13F-HR"), ("2025-01-10"), ("acc-0001")⟩], ("2025-01-07")⟩,
   ⟨true, true, fun _ => QuoteResult.err, ("2025-01-10-14")⟩,
   ⟨2025, 1, 10, 4, 50000⟩, ("2025-01-10")⟩

/-- Witness for C2: with missing credentials both delivery attempts fail and
neither stage changes the ledger. -/
theorem failed_delivery_leaves_ledger_unchanged_witness :
    filingStage c2Env ∅ = (0, (∅ : Ledger)) ∧
      priceStage c2Env (0, (∅ : Ledger)) = (0, (∅ : Ledger)) := by
  refine ⟨(failed_delivery_leaves_ledger_unchanged c2Env ∅).1 rfl, ?_⟩
  exact (failed_delivery_leaves_ledger_unchanged c2Env ∅).2.1 rfl (0, ∅)

/-- The filing stage counts one batch exactly when filings were queued and
their delivery succeeded. -/
theorem filingStage_fst (env : RunEnv) (cache : Ledger) :
    (filingStage env cache).1 =
      if ¬ (check_vip_filings env.filEnv cache).isEmpty = true ∧
          send_telegram_alert env.creds env.respFilings = true then 1 else 0 := by
  unfold filingStage
  by_cases he : (check_vip_filings env.filEnv cache).isEmpty = true
  · rw [if_pos he, if_neg (by simp [he])]
  · rw [if_neg he]
    by_cases hs : send_telegram_alert env.creds env.respFilings = true
    · rw [if_pos hs, if_pos ⟨he, hs⟩]
    · rw [if_neg hs, if_neg (by simp [hs])]

/-- The price stage adds one batch exactly when moves were queued and their
delivery succeeded; a queued non-empty batch always formats to a message. -/
theorem priceStage_fst (env : RunEnv) (acc : Nat × Ledger) :
    (priceStage env acc).1 =
      acc.1 + if ¬ (check_major_price_moves env.priceEnv (get_market_session env.now)
            acc.2).isEmpty = true ∧
          send_telegram_alert env.creds env.respPrices = true then 1 else 0 := by
  unfold priceStage
  by_cases he : (check_major_price_moves env.priceEnv (get_market_session env.now)
      acc.2).isEmpty = true
  · rw [if_pos he, if_neg (by simp [he])]
    simp
  · rw [if_neg he]
    obtain ⟨s, hs⟩ := format_price_alert_some he
    rw [hs]
    by_cases hsend : send_telegram_alert env.creds env.respPrices = true
    · rw [if_pos hsend, if_pos ⟨he, hsend⟩]
    · rw [if_neg hsend, if_neg (by simp [hsend])]
      simp

/-- The pass returns the stage count whether or not a summary follows. -/
theorem run_vip_monitoring_fst (env : RunEnv) (cache : Ledger) :
    (run_vip_monitoring env cache).1 = (priceStage env (filingStage env cache)).1 := by
  unfold run_vip_monitoring
  by_cases h : (priceStage env (filingStage env cache)).1 == 0
  · rw [if_pos h]
  · rw [if_neg h]

/-- C5: the pass returns exactly the number of filing and price batches
successfully delivered; the summary is attempted only when that count is
zero; the summary is delivered precisely when it is the end-of-day window,
today's summary identity is unseen, and its send succeeds; the identity is
marked exactly on successful delivery; and the summary never contributes to
the returned count. -/
theorem run_count_and_summary (env : RunEnv) (cache : Ledger) :
    ((run_vip_monitoring env cache).1 =
      (if ¬ (check_vip_filings env.filEnv cache).isEmpty = true ∧
          send_telegram_alert env.creds env.respFilings = true then 1 else 0) +
      (if ¬ (check_major_price_moves env.priceEnv (get_market_session env.now)
            (filingStage env cache).2).isEmpty = true ∧
          send_telegram_alert env.creds env.respPrices = true then 1 else 0)) ∧
    ((priceStage env (filingStage env cache)).1 ≠ 0 →
      (run_vip_monitoring env cache).2 = (priceStage env (filingStage env cache)).2) ∧
    ((priceStage env (filingStage env cache)).1 = 0 →
      (run_vip_monitoring env cache).2 =
        (send_daily_summary env (priceStage env (filingStage env cache)).2).2) ∧
    (∀ c : Ledger, ((send_daily_summary env c).1 = true ↔
        has_alert_been_sent (daily_summary_sent_key env) c = false ∧
          is_end_of_trading_day env.now = true ∧
          send_telegram_alert env.creds env.respSummary = true)) ∧
    (∀ c : Ledger, (send_daily_summary env c).1 = true →
      (send_daily_summary env c).2 = mark_alert_as_sent (daily_summary_sent_key env) c) ∧
    (∀ c : Ledger, (send_daily_summary env c).1 = false →
      (send_daily_summary env c).2 = c) := by
  refine ⟨?_, ?_, ?_, ?_, ?_, ?_⟩
  · rw [run_vip_monitoring_fst, priceStage_fst, filingStage_fst]
  · intro h
    unfold run_vip_monitoring
    rw [if_neg (by simpa using h)]
  · intro h
    unfold run_vip_monitoring
    rw [if_pos (by simpa using h)]
  · intro c
    unfold send_daily_summary
    by_cases h1 : has_alert_been_sent (daily_summary_sent_key env) c = true
    · rw [if_pos h1]
      simp [h1]
    · rw [if_neg h1]
      by_cases h2 : is_end_of_trading_day env.now = true
      · rw [if_neg (by simp [h2])]
        by_cases h3 : send_telegram_alert env.creds env.respSummary = true
        · rw [if_pos h3]
          simp [h1, h2, h3]
        · rw [if_neg h3]
          simp [h1, h2, h3]
      · rw [if_pos (by simp [h2])]
        simp [h1, h2]
  · intro c h
    unfold send_daily_summary at h ⊢
    by_cases h1 : has_alert_been_sent (daily_summary_sent_key env) c = true
    · rw [if_pos h1] at h
      simp at h
    · rw [if_neg h1] at h ⊢
      by_cases h2 : is_end_of_trading_day env.now = true
      · rw [if_neg (by simp [h2])] at h ⊢
        by_cases h3 : send_telegram_alert env.creds env.respSummary = true
        · rw [if_pos h3]
        · rw [if_neg h3] at h
          simp at h
      · rw [if_pos (by simp [h2])] at h
        simp at h
  · intro c h
    unfold send_daily_summary at h ⊢
    by_cases h1 : has_alert_been_sent (daily_summary_sent_key env) c = true
    · rw [if_pos h1]
    · rw [if_neg h1] at h ⊢
      by_cases h2 : is_end_of_trading_day env.now = true
      · rw [if_neg (by simp [h2])] at h ⊢
        by_cases h3 : send_telegram_alert env.creds env.respSummary = true
        · rw [if_pos h3] at h
          simp at h
        · rw [if_neg h3]
      · rw [if_pos (by simp [h2])]

/-- Concrete quiet pass environment: every filings fetch raises, the market
credential is missing, credentials for Telegram are present, every send gets
a 200, and the clock reads 16:45 Eastern on Friday 2025-01-10. -/
def c5Env : RunEnv :=
  ⟨true, SendOutcome.resp 200, SendOutcome.resp 200, SendOutcome.resp 200,
   ⟨fun _ => FetchResult.err, ("2025-01-05")⟩,
   ⟨false, true, fun _ => QuoteResult.err, ("2025-01-10-16")⟩,
   ⟨2025, 1, 10, 4, 16 * 3600 + 45 * 60⟩, ("2025-01-10")⟩

/-- Witness for C5: on a quiet pass with zero batches the ledger moves to the
summary stage's result, and against the empty ledger the summary is
delivered. -/
theorem run_count_and_summary_witness :
    (run_vip_monitoring c5Env ∅).2 =
      (send_daily_summary c5Env (priceStage c5Env (filingStage c5Env ∅)).2).2 ∧
    (send_daily_summary c5Env ∅).1 = true := by
  refine ⟨(run_count_and_summary c5Env ∅).2.2.1 (by decide), ?_⟩
  exact ((run_count_and_summary c5Env ∅).2.2.2.1 ∅).mpr (by decide)

/-! ### Ledger round-trip lemmas -/

/-- The character data written by the save loop: each key's characters
followed by a line feed. -/
def writeAllData : List String → List Char
  | [] => []
  | k :: ks => k.data ++ '\n' :: writeAllData ks

/-- Universal-newline translation is the identity on content without
carriage returns. -/
theorem universalNewlines_eq_self {l : List Char} (h : '\r' ∉ l) :
    universalNewlines l = l := by
  induction l with
  | nil => rfl
  | cons c cs ih =>
      have hc : c ≠ '\r' := fun hcc => h (hcc ▸ List.mem_cons_self c cs)
      have hcs : '\r' ∉ cs := fun hm => h (List.mem_cons_of_mem c hm)
      rw [show universalNewlines (c :: cs) = c :: universalNewlines cs from ?_, ih hcs]
      cases cs with
      | nil => simp [universalNewlines, hc]
      | cons d ds => simp [universalNewlines, hc]

/-- Splitting content that starts with a line-feed-free chunk followed by a
line feed yields that chunk as the first line. -/
theorem pyLinesAux_append (kd : List Char) (hk : '\n' ∉ kd) (rest : List Char)
    (acc : List Char) :
    pyLinesAux (kd ++ '\n' :: rest) acc =
      String.mk (acc.reverse ++ kd) :: pyLinesAux rest [] := by
  induction kd generalizing acc with
  | nil => simp [pyLinesAux]
  | cons c cd ih =>
      have hc : c ≠ '\n' := fun hcc => hk (hcc ▸ List.mem_cons_self c cd)
      have hcd : '\n' ∉ cd := fun hm => hk (List.mem_cons_of_mem c hm)
      rw [List.cons_append]
      rw [show pyLinesAux (c :: (cd ++ '\n' :: rest)) acc =
        pyLinesAux (cd ++ '\n' :: rest) (c :: acc) by simp [pyLinesAux, hc]]
      rw [ih hcd]
      congr 1
      simp

/-- The save loop appends exactly the keys' characters with line-feed
terminators. -/
theorem foldl_write_data (L : List String) (s : String) :
    (L.foldl (fun acc k => acc ++ k ++ "\n") s).data = s.data ++ writeAllData L := by
  induction L generalizing s with
  | nil => simp [writeAllData]
  | cons k ks ih =>
      rw [List.foldl_cons, ih, writeAllData]
      simp

/-- Saved content holds no carriage return when no key holds one. -/
theorem no_cr_writeAllData {L : List String} (h : ∀ k ∈ L, '\r' ∉ k.data) :
    '\r' ∉ writeAllData L := by
  induction L with
  | nil => simp [writeAllData]
  | cons k ks ih =>
      rw [writeAllData]
      intro hm
      rcases List.mem_append.mp hm with hm | hm
      · exact h k (List.mem_cons_self k ks) hm
      · rcases List.mem_cons.mp hm with hm | hm
        · exact absurd hm (by decide)
        · exact ih (fun q hq => h q (List.mem_cons_of_mem k hq)) hm

/-- Splitting saved content recovers exactly the keys, when no key holds a
line feed. -/
theorem pyLinesAux_writeAllData {L : List String} (h : ∀ k ∈ L, '\n' ∉ k.data) :
    pyLinesAux (writeAllData L) [] = L := by
  induction L with
  | nil => rfl
  | cons k ks ih =>
      rw [writeAllData, pyLinesAux_append k.data (h k (List.mem_cons_self k ks)) _ [],
        ih (fun q hq => h q (List.mem_cons_of_mem k hq))]
      congr 1

/-- Loading content adds exactly the stripped forms of its lines to the
cache. -/
theorem load_sent_alerts_eq_union (content : String) (c : Ledger) :
    load_sent_alerts c content = c ∪ ((pyLines content).map pyStrip).toFinset := by
  have haux : ∀ (L : List String) (c : Ledger),
      L.foldl (fun c line => insert (pyStrip line) c) c = c ∪ (L.map pyStrip).toFinset := by
    intro L
    induction L with
    | nil => intro c; simp
    | cons x xs ih =>
        intro c
        rw [List.foldl_cons, ih]
        ext k
        simp
  rw [load_sent_alerts, haux]

/-- Marking a list of keys yields exactly their finite set. -/
theorem markAll_eq_toFinset (L : List String) : markAll L = L.toFinset := by
  have haux : ∀ (M : List String) (c : Ledger),
      M.foldl (fun c k => mark_alert_as_sent k c) c = c ∪ M.toFinset := by
    intro M
    induction M with
    | nil => intro c; simp
    | cons x xs ih =>
        intro c
        rw [List.foldl_cons, ih]
        ext k
        simp [mark_alert_as_sent]
  rw [markAll, haux]
  simp

/-- C7 (amended): for identities free of leading and trailing Python
whitespace and containing no line feed or carriage return, saving the
ledger and loading the saved content into an empty cache reproduces exactly
the same identity set, independently of the order in which the identities
were marked before saving. -/
theorem ledger_roundtrip_amended (l l' : List String)
    (hclean : ∀ k ∈ l, pyStrip k = k ∧ '\n' ∉ k.data ∧ '\r' ∉ k.data)
    (hperm : l'.Perm l) :
    load_sent_alerts ∅ (save_sent_alerts (markAll l)) = markAll l ∧
    save_sent_alerts (markAll l') = save_sent_alerts (markAll l) := by
  constructor
  · have hmem : ∀ k ∈ (markAll l).sort (· ≤ ·), k ∈ l := by
      intro k hk
      rw [Finset.mem_sort, markAll_eq_toFinset, List.mem_toFinset] at hk
      exact hk
    have hdata : (save_sent_alerts (markAll l)).data =
        writeAllData ((markAll l).sort (· ≤ ·)) := by
      rw [save_sent_alerts, foldl_write_data]
      rfl
    have hlines : pyLines (save_sent_alerts (markAll l)) = (markAll l).sort (· ≤ ·) := by
      rw [pyLines, hdata,
        universalNewlines_eq_self
          (no_cr_writeAllData (fun k hk => (hclean k (hmem k hk)).2.2)),
        pyLinesAux_writeAllData (fun k hk => (hclean k (hmem k hk)).2.1)]
    rw [load_sent_alerts_eq_union, hlines]
    have hmap : ((markAll l).sort (· ≤ ·)).map pyStrip = (markAll l).sort (· ≤ ·) :=
      calc ((markAll l).sort (· ≤ ·)).map pyStrip
          = ((markAll l).sort (· ≤ ·)).map id :=
            List.map_congr_left (fun k hk => (hclean k (hmem k hk)).1)
        _ = (markAll l).sort (· ≤ ·) := List.map_id _
    rw [hmap, Finset.sort_toFinset]
    exact Finset.empty_union _
  · have hset : l'.toFinset = l.toFinset := by
      ext k
      simp [hperm.mem_iff]
    rw [markAll_eq_toFinset, markAll_eq_toFinset, hset]

/-- C7 (counterexample): an identity carrying a trailing space does not
survive the round trip, because loading strips each stored line; the
reloaded set differs from the saved one. -/
theorem ledger_roundtrip_counterexample :
    load_sent_alerts ∅ (save_sent_alerts (markAll [("key-a ")])) ≠
      markAll [("key-a ")] := by
  have h1 : markAll [("key-a ")] = {("key-a ")} := by
    rw [markAll_eq_toFinset]
    rfl
  have h2 : save_sent_alerts (markAll [("key-a ")]) = "key-a \n" := by
    rw [h1, save_sent_alerts, Finset.sort_singleton]
    rfl
  rw [h2, h1]
  decide

/-- Witness for C7: a two-identity ledger of program-shaped keys round-trips
exactly, in either insertion order. -/
theorem ledger_roundtrip_amended_witness :
    load_sent_alerts ∅ (save_sent_alerts (markAll [("file-1-a"), ("price-AAPL-2025")])) =
      markAll [("file-1-a"), ("price-AAPL-2025")] ∧
    save_sent_alerts (markAll [("price-AAPL-2025"), ("file-1-a")]) =
      save_sent_alerts (markAll [("file-1-a"), ("price-AAPL-2025")]) :=
  ledger_roundtrip_amended [("file-1-a"), ("price-AAPL-2025")]
    [("price-AAPL-2025"), ("file-1-a")] (by decide) (List.Perm.swap _ _ _)

/-- C8: erroring one entity's fetch (or one symbol's quote) removes exactly
that item's events from the scan, leaving every other item's events intact;
and when whole stages fail (every fetch raises, the quote client cannot be
built) the pass still runs the remaining stages through to the daily
summary. -/
theorem per_item_failure_isolated (fenv fenv' : FilingsEnv) (penv penv' : PriceEnv)
    (session : Session) (cache : Ledger) (cik0 t0 : String)
    (hfetch : ∀ c, c ≠ cik0 → fenv'.fetch c = fenv.fetch c)
    (hcut : fenv'.cutoffDate = fenv.cutoffDate)
    (hferr : fenv'.fetch cik0 = FetchResult.err)
    (hq : ∀ t, t ≠ t0 → penv'.quote t = penv.quote t)
    (hkey : penv'.hasKey = penv.hasKey)
    (hclient : penv'.clientOk = penv.clientOk)
    (hbucket : penv'.hourBucket = penv.hourBucket)
    (hqerr : penv'.quote t0 = QuoteResult.err) :
    check_vip_filings fenv' cache =
      (check_vip_filings fenv cache).filter (fun e => !(e.cik == cik0)) ∧
    check_major_price_moves penv' session cache =
      (check_major_price_moves penv session cache).filter (fun m => !(m.ticker == t0)) ∧
    (∀ env : RunEnv, ∀ c : Ledger, env.filEnv.fetch = (fun _ => FetchResult.err) →
      env.priceEnv.clientOk = false →
      check_vip_filings env.filEnv c = [] ∧
      check_major_price_moves env.priceEnv (get_market_session env.now) c = [] ∧
      run_vip_monitoring env c = (0, (send_daily_summary env c).2)) := by
  refine ⟨?_, ?_, ?_⟩
  · unfold check_vip_filings
    exact flatMap_filings_err_cik hfetch hcut hferr vip_traders
  · unfold check_major_price_moves
    rw [hkey, hclient]
    by_cases h1 : penv.hasKey = true
    · by_cases h2 : penv.clientOk = true
      · rw [if_neg (not_not_intro h1), if_neg (not_not_intro h1),
          if_neg (not_not_intro h2), if_neg (not_not_intro h2)]
        exact filterMap_moves_err_ticker hq hbucket hqerr major_tickers
      · rw [if_neg (not_not_intro h1), if_neg (not_not_intro h1),
          if_pos h2, if_pos h2]
        rfl
    · rw [if_pos h1, if_pos h1]
      rfl
  · intro env c hfe hco
    have hfil : check_vip_filings env.filEnv c = [] := by
      have haux : ∀ L : List (String × TraderInfo),
          (L.flatMap fun p => filings_for_trader env.filEnv c p.1 p.2) = [] := by
        intro L
        induction L with
        | nil => rfl
        | cons p M ih =>
            rw [List.flatMap_cons, filings_for_trader_err (by rw [hfe]), ih]
            rfl
      exact haux vip_traders
    have hmov : check_major_price_moves env.priceEnv (get_market_session env.now) c = [] := by
      unfold check_major_price_moves
      rw [hco]
      by_cases hk2 : env.priceEnv.hasKey = true <;> simp [hk2]
    have h1 : filingStage env c = (0, c) := by
      simp [filingStage, hfil]
    have h2 : priceStage env (0, c) = (0, c) := by
      simp [priceStage, hmov]
    refine ⟨hfil, hmov, ?_⟩
    unfold run_vip_monitoring
    rw [h1, h2]
    simp

/-- Concrete filings environment for the C8 witness: the Berkshire cik
answers with one fresh filing, all other ciks answer 200 with no usable
body. -/
def c8Env : FilingsEnv :=
  ⟨fun c => if c == "1067983" then
      FetchResult.ok [⟨("13F-HR"), ("2025-01-10"), ("acc-0002")⟩]
    else FetchResult.notOk,
   ("2025-01-07")⟩

/-- The same environment with the Berkshire fetch raising instead. -/
def c8EnvErr : FilingsEnv :=
  ⟨fun c => if c == "1067983" then FetchResult.err else FetchResult.notOk,
   ("2025-01-07")⟩

/-- Concrete price environment for the C8 witness: every quote raises. -/
def p8Env : PriceEnv :=
  ⟨true, true, fun _ => QuoteResult.err, ("2025-01-10-14")⟩

/-- Witness for C8: erroring the Berkshire fetch removes exactly the
Berkshire events from the concrete scan. -/
theorem per_item_failure_isolated_witness :
    check_vip_filings c8EnvErr ∅ =
      (check_vip_filings c8Env ∅).filter (fun e => !(e.cik == "1067983")) :=
  (per_item_failure_isolated c8Env c8EnvErr p8Env p8Env Session.regular ∅
    ("1067983") ("AAPL")
    (by
      intro c hc
      simp [c8EnvErr, c8Env, hc])
    rfl rfl (fun t _ => rfl) rfl rfl rfl rfl).1

/-! ### Concrete price-scan scenario (C3 witness) -/

/-- Concrete price environment: AAPL quotes 104 against a previous close of
100, every other symbol's quote raises. -/
def c3Env : PriceEnv :=
  ⟨true, true,
   fun t => if t == "AAPL" then QuoteResult.ok (some 104) (some 100) else QuoteResult.err,
   ("2025-01-10-14")⟩

/-- The move the concrete scan queues for AAPL. -/
def c3Move : MoveInfo :=
  ⟨("AAPL"), ("Apple Inc."), 104, 100, 4, 4, ("price-AAPL-2025-01-10-14"), 3.5⟩

/-- Evaluation of the loop body at AAPL in the concrete environment: +4
percent clears the 3.5 regular-session threshold and is queued. -/
theorem c3_move_at_aapl :
    price_move_for_ticker c3Env Session.regular ∅ ("AAPL") = some c3Move := by
  have hq : c3Env.quote ("AAPL") = QuoteResult.ok (some 104) (some 100) := rfl
  have hthr : get_alert_threshold ("AAPL") Session.regular = 3.5 := rfl
  have hcomp : get_company_name ("AAPL") = "Apple Inc." := rfl
  have hsent : has_alert_been_sent ("price-AAPL-2025-01-10-14") ∅ = false := rfl
  have habs : |((104 : ℚ) - 100) / 100 * 100| = 4 := by
    rw [show ((104 : ℚ) - 100) / 100 * 100 = 4 by norm_num]
    exact abs_of_nonneg (by norm_num)
  unfold price_move_for_ticker
  rw [hq]
  norm_num [hthr, hcomp, hsent, habs, c3Move]
  exact ⟨rfl, rfl⟩

/-- Witness for C3: the concrete AAPL move queued by the scan carries
exactly the (104 - 100) / 100 * 100 percentage change from its quote. -/
theorem price_change_pct_formula_witness :
    ∃ c pc, c3Env.quote c3Move.ticker = QuoteResult.ok (some c) (some pc) ∧ 0 < pc ∧
      c3Move.current_price = c ∧ c3Move.previous_close = pc ∧
      c3Move.change_pct = (c - pc) / pc * 100 :=
  (price_change_pct_formula c3Env Session.regular ∅).1 c3Move
    (by
      show c3Move ∈ major_tickers.filterMap (price_move_for_ticker c3Env Session.regular ∅)
      exact List.mem_filterMap.mpr ⟨("AAPL"), by decide, c3_move_at_aapl⟩)
